import Mathlib

/-!
Shallow embedding of the scoring core of `src/app.py` (a single-page stock
dashboard).  The scoring function `calculate_super_score` (lines 54-119 of
the source) is translated here together with the small pieces of the
surrounding dashboard that the verified claims mention: the `WEIGHTS`
mapping (lines 63-68), and the guard with which the page decides whether to
invoke scoring at all (line 143).

Modelling conventions:
* a pandas cell is `Option ℚ`; `none` plays the role of `NaN`, and every
  comparison involving `none` is `false`, exactly as every comparison
  involving `NaN` is `False` in Python;
* positional indexing `df.iloc[-k]` is `ilocNeg rows k`; an out-of-range
  index raises `IndexError` in Python, which the embedding models as
  `Except.error ScoreError.insufficientData`;
* the columns `SMA_5/SMA_10/SMA_50/RSI/MACD/MACDs/MFI/OBV` are always
  created by `get_data`, so they are plain fields of `Row`; the stochastic
  columns are the only ones whose presence the scoring code tests
  (`k_line in df.columns`), so their presence is the flag
  `DataFrame.hasStochCols`;
* the source's fractional literal `0.2` is written `mkRat 1 5` (the same
  rational), a spelling the kernel can evaluate on concrete inputs.
-/

namespace Stock

/-- One row of the indicator dataframe: the named numeric cells the scoring
code can read.  `none` is a missing reading (pandas `NaN`). -/
structure Row where
  sma5 : Option ℚ
  sma10 : Option ℚ
  sma50 : Option ℚ
  rsi : Option ℚ
  macd : Option ℚ
  macds : Option ℚ
  stochk : Option ℚ
  stochd : Option ℚ
  mfi : Option ℚ
  obv : Option ℚ
  deriving DecidableEq

/-- The indicator dataframe: its rows in time order, plus whether the
stochastic columns `STOCHk_14_3_3` / `STOCHd_14_3_3` are present (the one
column-presence test the scoring code performs). -/
structure DataFrame where
  rows : List Row
  hasStochCols : Bool
  deriving DecidableEq

/-- The metadata mapping `info`: the fields of it that the claims mention.
`shortPercentOfFloat` is the only one the scoring code reads
(`info.get('shortPercentOfFloat', 0)`); `revenueGrowth` and `debtToEquity`
are displayed elsewhere on the page but carried here so that invariance
statements about them can be expressed. -/
structure Info where
  shortPercentOfFloat : Option ℚ
  revenueGrowth : Option ℚ
  debtToEquity : Option ℚ
  deriving DecidableEq

/-- Python comparison `a > b` where `a` is a cell: `NaN > b` is `False`. -/
def ogt (a : Option ℚ) (b : ℚ) : Bool :=
  match a with
  | some x => decide (b < x)
  | none => false

/-- Python comparison `a < b` where `a` is a cell: `NaN < b` is `False`. -/
def olt (a : Option ℚ) (b : ℚ) : Bool :=
  match a with
  | some x => decide (x < b)
  | none => false

/-- Python comparison `a > b` between two cells: `False` if either is `NaN`. -/
def ogtO (a b : Option ℚ) : Bool :=
  match a, b with
  | some x, some y => decide (y < x)
  | _, _ => false

/-- Python comparison `a < b` between two cells: `False` if either is `NaN`. -/
def oltO (a b : Option ℚ) : Bool :=
  match a, b with
  | some x, some y => decide (x < y)
  | _, _ => false

/-- Python comparison `a <= b` between two cells: `False` if either is `NaN`. -/
def oleO (a b : Option ℚ) : Bool :=
  match a, b with
  | some x, some y => decide (x ≤ y)
  | _, _ => false

/-- The failure the scoring code can actually raise: a pandas `IndexError`
from positional indexing into too short a frame (`df.iloc[-2]` with one row,
`df['OBV'].iloc[-10]` with fewer than ten rows).  The spec names this
condition `InsufficientData`. -/
inductive ScoreError where
  | insufficientData
  deriving DecidableEq

/-- `df.iloc[-k]` (only negative positions occur in the source): the `k`-th
row from the end, an `IndexError` when the frame has fewer than `k` rows. -/
def ilocNeg (rows : List Row) (k : ℕ) : Except ScoreError Row :=
  if h : 0 < k ∧ k ≤ rows.length then
    .ok (rows.get ⟨rows.length - k, by omega⟩)
  else
    .error .insufficientData

/-- Reason string of the bullish trend rule (source line 75). -/
def trendBullMsg : String :=
  "🟢 **長線趨勢確認**：短線均線 (MA5) 在長線均線 (MA50) 之上，大方向看多。"

/-- Reason string of the bearish trend rule (source line 78). -/
def trendBearMsg : String :=
  "🔻 **長線趨勢轉弱**：股價位於長線均線之下，操作應以防守為主。"

/-- Reason string of the MA 5/10 golden-cross rule (source line 87). -/
def maCrossMsg : String :=
  "🚀 **MA金叉訊號**：5日線向上突破10日線，短線強勢進場點。"

/-- Reason string of the KD low golden-cross rule (source line 95). -/
def kdGoldMsg : String :=
  "💎 **KD低檔金叉**：K線向上突破D線，低檔買入機會。"

/-- Reason string of the KD high death-cross rule (source line 98). -/
def kdDeathMsg : String :=
  "🛑 **KD高檔死叉**：K線向下突破D線，高檔賣出警示。"

/-- Reason string of the institutional accumulation rule (source line 105). -/
def accumMsg : String :=
  "💰 **主力資金湧入**：MFI 過熱且 OBV 上升，主力資金積極佈局中。"

/-- Reason string of the MFI capitulation rule (source line 108). -/
def capitMsg : String :=
  "🌊 **MFI資金超賣**：資金流出已達極限，容易反彈。"

/-- Reason string of the short-squeeze rule (source line 116); the Python
f-string interpolates the short percentage, rendered here with `toString`
in place of the `.1f` float format. -/
def squeezeMsg (p : ℚ) : String :=
  "🔥 **超高軋空風險**：做空比例高達 " ++ toString (p * 100) ++
    "%，若上漲易引發劇烈軋空行情。"

/-- One `if cond: score += delta; reasons.append(msg)` step. -/
def applyRule (cond : Bool) (delta : ℤ) (msg : String) :
    ℤ × List String → ℤ × List String
  | (s, rs) => if cond then (s + delta, rs ++ [msg]) else (s, rs)

/-- One `if cond1: ... elif cond2: ...` step, each branch adding a delta and
appending a reason. -/
def applyRule2 (cond1 : Bool) (d1 : ℤ) (m1 : String)
    (cond2 : Bool) (d2 : ℤ) (m2 : String) :
    ℤ × List String → ℤ × List String
  | (s, rs) =>
    if cond1 then (s + d1, rs ++ [m1])
    else if cond2 then (s + d2, rs ++ [m2])
    else (s, rs)

/-- The `WEIGHTS` dictionary of source lines 63-68, `'TREND': 30`.  The
dictionary is declared inside `calculate_super_score` and never referenced
again. -/
def WEIGHTS_TREND : ℤ := 30

/-- `'MOMENTUM': 30` of the `WEIGHTS` dictionary (source lines 63-68). -/
def WEIGHTS_MOMENTUM : ℤ := 30

/-- `'INSTITUTION': 20` of the `WEIGHTS` dictionary (source lines 63-68). -/
def WEIGHTS_INSTITUTION : ℤ := 20

/-- `'SHORT_RISK': 20` of the `WEIGHTS` dictionary (source lines 63-68). -/
def WEIGHTS_SHORT_RISK : ℤ := 20

/-- Exception propagation: evaluate `x`; a raised error aborts the whole
computation, a value feeds the continuation.  This is how an uncaught
Python exception travels out of `calculate_super_score`. -/
def bindE {α β : Type} (x : Except ScoreError α)
    (f : α → Except ScoreError β) : Except ScoreError β :=
  match x with
  | .error e => .error e
  | .ok v => f v

/-- The lazy conjunction guarding the accumulation rule (source line 103):
`last['MFI'] > 80 and last['OBV'] > df['OBV'].iloc[-10]`.  The second
conjunct — and hence the possible `IndexError` of `iloc[-10]` — is only
evaluated when the first holds, exactly as Python's `and` short-circuits. -/
def instCond (rows : List Row) (last : Row) : Except ScoreError Bool :=
  if ogt last.mfi 80 then
    bindE (ilocNeg rows 10) fun look => .ok (ogtO last.obv look.obv)
  else
    .ok false

/-- The rule cascade of `calculate_super_score` (source lines 59-119) once
`last`, `prev` and the accumulation condition `c1` are in hand: base 50,
trend rule, MA 5/10 cross rule, KD rules (only when the stochastic columns
exist), institutional rules, short-squeeze rule, then
`max(0, min(100, int(score)))` — `score` is always an integer here, so
`int` is the identity. -/
def scoreFrom (last prev : Row) (hasStoch : Bool) (c1 : Bool) (i : Info) :
    ℤ × List String :=
  let sr : ℤ × List String := (50, [])
  let sr := applyRule2 (ogtO last.sma5 last.sma50) 15 trendBullMsg
    (oltO last.sma5 last.sma50) (-15) trendBearMsg sr
  let sr := applyRule (ogtO last.sma5 last.sma10 && oleO prev.sma5 prev.sma10)
    10 maCrossMsg sr
  let sr :=
    if hasStoch then
      applyRule2 (ogtO last.stochk last.stochd && olt last.stochk 50) 10 kdGoldMsg
        (oltO last.stochk last.stochd && ogt last.stochk 80) (-10) kdDeathMsg sr
    else sr
  let sr := applyRule2 c1 10 accumMsg (olt last.mfi 20) 5 capitMsg sr
  let short_pct : ℚ := i.shortPercentOfFloat.getD 0
  let sr := applyRule (decide (short_pct > mkRat 1 5)) 15 (squeezeMsg short_pct) sr
  (max 0 (min 100 sr.1), sr.2)

/-- `calculate_super_score(df, info)` (source lines 54-119).  The guard of
line 55 returns the sentinel `(50, [])` when the frame is `None` or empty or
the metadata is `None`.  Otherwise `last = df.iloc[-1]` and
`prev = df.iloc[-2]` are read (an `IndexError` with fewer than two rows),
the accumulation condition is evaluated (its `iloc[-10]` can also raise),
and the rule cascade produces the clamped score and the reasons.  Raising
the accumulation lookup before the pure rule arithmetic is observationally
identical to the source order, since a raised `IndexError` discards the
partially updated `score` in Python just as `Except.error` does here. -/
def calculate_super_score (df : Option DataFrame) (info : Option Info) :
    Except ScoreError (ℤ × List String) :=
  match df, info with
  | some d, some i =>
    if d.rows.isEmpty then .ok (50, [])
    else
      bindE (ilocNeg d.rows 1) fun last =>
      bindE (ilocNeg d.rows 2) fun prev =>
      bindE (instCond d.rows last) fun c1 =>
      .ok (scoreFrom last prev d.hasStochCols c1 i)
  | _, _ => .ok (50, [])

/-- The guard of source line 143 under which the dashboard invokes scoring
and displays a score: `df is not None and not df.empty and info is not
None`. -/
def dashboard_guard (df : Option DataFrame) (info : Option Info) : Bool :=
  match df, info with
  | some d, some _ => !d.rows.isEmpty
  | _, _ => false

/-- Score component of a scoring outcome. -/
def scoreOf (r : Except ScoreError (ℤ × List String)) : Except ScoreError ℤ :=
  r.map Prod.fst

/-- Signed delta the trend rule (source lines 73-78) contributes. -/
def trendDelta (l : Row) : ℤ :=
  if ogtO l.sma5 l.sma50 then 15 else if oltO l.sma5 l.sma50 then -15 else 0

/-- Reasons the trend rule appends. -/
def trendMsgs (l : Row) : List String :=
  if ogtO l.sma5 l.sma50 then [trendBullMsg]
  else if oltO l.sma5 l.sma50 then [trendBearMsg] else []

/-- Signed delta the MA 5/10 cross rule (source lines 85-87) contributes. -/
def maCrossDelta (l p : Row) : ℤ :=
  if ogtO l.sma5 l.sma10 && oleO p.sma5 p.sma10 then 10 else 0

/-- Reasons the MA 5/10 cross rule appends. -/
def maCrossMsgs (l p : Row) : List String :=
  if ogtO l.sma5 l.sma10 && oleO p.sma5 p.sma10 then [maCrossMsg] else []

/-- Signed delta the KD rules (source lines 90-98) contribute. -/
def kdDelta (hasStoch : Bool) (l : Row) : ℤ :=
  if hasStoch then
    if ogtO l.stochk l.stochd && olt l.stochk 50 then 10
    else if oltO l.stochk l.stochd && ogt l.stochk 80 then -10
    else 0
  else 0

/-- Reasons the KD rules append. -/
def kdMsgs (hasStoch : Bool) (l : Row) : List String :=
  if hasStoch then
    if ogtO l.stochk l.stochd && olt l.stochk 50 then [kdGoldMsg]
    else if oltO l.stochk l.stochd && ogt l.stochk 80 then [kdDeathMsg]
    else []
  else []

/-- Signed delta the institutional rules (source lines 103-108) contribute,
given the already-evaluated accumulation condition `c1`. -/
def instDelta (c1 : Bool) (l : Row) : ℤ :=
  if c1 then 10 else if olt l.mfi 20 then 5 else 0

/-- Reasons the institutional rules append. -/
def instMsgs (c1 : Bool) (l : Row) : List String :=
  if c1 then [accumMsg] else if olt l.mfi 20 then [capitMsg] else []

/-- Signed delta the short-squeeze rule (source lines 113-116) contributes. -/
def shortDelta (i : Info) : ℤ :=
  if decide (i.shortPercentOfFloat.getD 0 > mkRat 1 5) then 15 else 0

/-- Reasons the short-squeeze rule appends. -/
def shortMsgs (i : Info) : List String :=
  if decide (i.shortPercentOfFloat.getD 0 > mkRat 1 5) then
    [squeezeMsg (i.shortPercentOfFloat.getD 0)]
  else []

/-- Decidable equality of scoring outcomes, so that concrete runs can be
checked by evaluation. -/
instance exceptDecEq {α : Type} [DecidableEq α] :
    DecidableEq (Except ScoreError α) :=
  fun a b =>
    match a, b with
    | .ok x, .ok y =>
      if h : x = y then .isTrue (by rw [h]) else .isFalse (by simp [h])
    | .error x, .error y => .isTrue (by cases x; cases y; rfl)
    | .ok _, .error _ => .isFalse (by simp)
    | .error _, .ok _ => .isFalse (by simp)

/-- Pointwise lifting of a row comparison over two row lists. -/
def rowsEqBy (f : Row → Row → Bool) : List Row → List Row → Bool
  | [], [] => true
  | r :: rs, t :: ts => f r t && rowsEqBy f rs ts
  | _, _ => false

/-- Agreement on the cells of a row that the scoring cascade actually
reads: the two moving-average cells it compares, the long moving average,
both stochastic cells, MFI and OBV.  The remaining cells, RSI and the two
MACD cells, are computed by `get_data` but never consulted by
`calculate_super_score`. -/
def readRowEq (a b : Row) : Bool :=
  decide (a.sma5 = b.sma5) && decide (a.sma10 = b.sma10) &&
  decide (a.sma50 = b.sma50) && decide (a.stochk = b.stochk) &&
  decide (a.stochd = b.stochd) && decide (a.mfi = b.mfi) &&
  decide (a.obv = b.obv)

/-- Rows equal in every cell except possibly the RSI cell. -/
def rowEqExceptRsi (a b : Row) : Bool :=
  readRowEq a b && decide (a.macd = b.macd) && decide (a.macds = b.macds)

/-- Rows equal in every cell except possibly the two MACD cells. -/
def rowEqExceptMacd (a b : Row) : Bool :=
  readRowEq a b && decide (a.rsi = b.rsi)

/-- The score as the claim describes it: the four dimension running totals
combined via the configured `WEIGHTS` percentages, added to the base of 50,
clamped to `[0,100]` and truncated to an integer (`Int.div` truncates
toward zero, as Python `int` does).  Stated from the spec's words, for
comparison against what the code computes. -/
def spec_weighted_score (l p : Row) (hs c1 : Bool) (i : Info) : ℤ :=
  max 0 (min 100 (50 + Int.tdiv
    (WEIGHTS_TREND * trendDelta l +
      WEIGHTS_MOMENTUM * (maCrossDelta l p + kdDelta hs l) +
      WEIGHTS_INSTITUTION * instDelta c1 l +
      WEIGHTS_SHORT_RISK * shortDelta i) 100))

/-- The accumulation trigger as the claim words it: the current MFI reading
exceeds 80 and the current OBV is higher than the OBV value ten bars prior
to the current bar, which is the eleventh row from the end.  Stated from
the spec's words, for comparison against what the code tests
(`df['OBV'].iloc[-10]`, the tenth row from the end). -/
def claimAccumCond (rows : List Row) : Bool :=
  match ilocNeg rows 1, ilocNeg rows 11 with
  | .ok last, .ok tenPrior => ogt last.mfi 80 && ogtO last.obv tenPrior.obv
  | _, _ => false

/-- A row with every indicator cell missing. -/
def rowNone : Row := ⟨none, none, none, none, none, none, none, none, none, none⟩

/-- Metadata with a 10 percent short float and nothing else. -/
def infoN : Info := ⟨some (mkRat 1 10), none, none⟩

/-- Metadata with a 15 percent short float. -/
def info15 : Info := ⟨some (mkRat 3 20), none, none⟩

/-- Metadata with a 25 percent short float. -/
def info25 : Info := ⟨some (mkRat 1 4), none, none⟩

/-- A current row whose short moving average sits above its long one. -/
def rTrend : Row := { rowNone with sma5 := some 105, sma50 := some 100 }

/-- Two-row frame on which only the bullish trend rule fires. -/
def d4 : DataFrame := ⟨[rowNone, rTrend], true⟩

/-- A current row with a bullish low-zone stochastic cross. -/
def rKD : Row := { rowNone with stochk := some 30, stochd := some 20 }

/-- A current row with only the stochastic D cell present. -/
def rKDnone : Row := { rowNone with stochd := some 20 }

/-- Two-row frame on which only the KD golden-cross rule fires. -/
def dK1 : DataFrame := ⟨[rowNone, rKD], true⟩

/-- The same frame with the stochastic K reading removed. -/
def dK2 : DataFrame := ⟨[rowNone, rKDnone], true⟩

/-- Previous row below its ten-day average (cross precondition holds). -/
def rMAprev1 : Row := { rowNone with sma5 := some 100, sma10 := some 101 }

/-- Previous row already above its ten-day average (no fresh cross). -/
def rMAprev2 : Row := { rowNone with sma5 := some 102, sma10 := some 101 }

/-- Current row with the five-day average above the ten-day average. -/
def rMAlast : Row := { rowNone with sma5 := some 105, sma10 := some 104 }

/-- Two-row frame on which the MA 5/10 golden-cross rule fires. -/
def dMA1 : DataFrame := ⟨[rMAprev1, rMAlast], true⟩

/-- The same frame except the previous bar was already above: no cross. -/
def dMA2 : DataFrame := ⟨[rMAprev2, rMAlast], true⟩

/-- A current row carrying only an RSI reading of 32. -/
def rRsi1 : Row := { rowNone with rsi := some 32 }

/-- A current row carrying only an RSI reading of 70. -/
def rRsi2 : Row := { rowNone with rsi := some 70 }

/-- Two-row frame whose current bar reads RSI 32. -/
def dR1 : DataFrame := ⟨[rowNone, rRsi1], true⟩

/-- Two-row frame identical to `dR1` except the RSI reads 70. -/
def dR2 : DataFrame := ⟨[rowNone, rRsi2], true⟩

/-- Two-row frame with no indicator readings at all. -/
def d6 : DataFrame := ⟨[rowNone, rowNone], true⟩

/-- A current row with MFI 90 and an OBV of 50. -/
def rMfiHi : Row := { rowNone with mfi := some 90, obv := some 50 }

/-- Two-row frame whose current MFI exceeds 80: the accumulation rule's
OBV lookback then indexes ten rows back into a two-row frame. -/
def dfC7 : DataFrame := ⟨[rowNone, rMfiHi], true⟩

/-- A row carrying only an OBV of 100. -/
def rObv100 : Row := { rowNone with obv := some 100 }

/-- A row carrying only an OBV of 0. -/
def rObv0 : Row := { rowNone with obv := some 0 }

/-- Eleven-row frame: OBV ten bars prior to the current bar (first row) is
100, OBV at the tenth row from the end (second row) is 0, current OBV is 50
with MFI 90. -/
def dfC8 : DataFrame :=
  ⟨[rObv100, rObv0, rowNone, rowNone, rowNone, rowNone, rowNone, rowNone,
    rowNone, rowNone, rMfiHi], true⟩

/-- Current row of `d9`: every bullish reading at once. -/
def r9last : Row :=
  { rowNone with
    sma5 := some 105
    sma10 := some 104
    sma50 := some 100
    stochk := some 30
    stochd := some 20
    mfi := some 90
    obv := some 1000 }

/-- Ten-row frame on which all four non-short rules fire bullishly, worth
45 points over the base. -/
def d9 : DataFrame :=
  ⟨[rObv0, rowNone, rowNone, rowNone, rowNone, rowNone, rowNone, rowNone,
    rMAprev1, r9last], true⟩

/-- Value the accumulation condition evaluates to when it evaluates without
raising; `false` in the raising case, where it is never consulted. -/
def instOkB (rows : List Row) (last : Row) : Bool :=
  match instCond rows last with
  | .ok b => b
  | .error _ => false

/-- Two bare rows with the stochastic columns absent. -/
def d7w : DataFrame := ⟨[rowNone, rowNone], false⟩

/-- A current row carrying only an MFI reading of 10, deep in the
capitulation zone. -/
def rMfiLow : Row := { rowNone with mfi := some 10 }

/-- Two-row frame on which only the capitulation rule fires. -/
def dC10 : DataFrame := ⟨[rowNone, rMfiLow], true⟩

/-- Claim C5 as stated: some pair of inputs differing only in the RSI
reading changes the outcome, and some pair differing only in the MACD
cells changes the outcome. -/
def C5_claim : Prop :=
  (∃ (d d' : DataFrame) (i : Info),
    d.hasStochCols = d'.hasStochCols ∧
    rowsEqBy rowEqExceptRsi d.rows d'.rows = true ∧
    calculate_super_score (some d) (some i) ≠
      calculate_super_score (some d') (some i)) ∧
  (∃ (d d' : DataFrame) (i : Info),
    d.hasStochCols = d'.hasStochCols ∧
    rowsEqBy rowEqExceptMacd d.rows d'.rows = true ∧
    calculate_super_score (some d) (some i) ≠
      calculate_super_score (some d') (some i))

/-- Claim C6 as stated: some pair of inputs differing only in the
revenue-growth and debt-to-equity metadata fields changes the outcome. -/
def C6_claim : Prop :=
  ∃ (df : Option DataFrame) (sp rg de rg' de' : Option ℚ),
    calculate_super_score df (some ⟨sp, rg, de⟩) ≠
      calculate_super_score df (some ⟨sp, rg', de'⟩)

theorem bindE_ok {α β : Type} (v : α) (f : α → Except ScoreError β) :
    bindE (.ok v) f = f v := rfl

theorem bindE_error {α β : Type} (e : ScoreError)
    (f : α → Except ScoreError β) : bindE (.error e) f = .error e := rfl

theorem applyRule_eq (c : Bool) (d : ℤ) (m : String) (sr : ℤ × List String) :
    applyRule c d m sr =
      (sr.1 + if c then d else 0, sr.2 ++ if c then [m] else []) := by
  cases sr with
  | mk s rs => cases c <;> simp [applyRule]

theorem applyRule2_eq (c1 : Bool) (d1 : ℤ) (m1 : String) (c2 : Bool) (d2 : ℤ)
    (m2 : String) (sr : ℤ × List String) :
    applyRule2 c1 d1 m1 c2 d2 m2 sr =
      (sr.1 + (if c1 then d1 else if c2 then d2 else 0),
       sr.2 ++ (if c1 then [m1] else if c2 then [m2] else [])) := by
  cases sr with
  | mk s rs => cases c1 <;> cases c2 <;> simp [applyRule2]

/-- Score component of the rule cascade, linearised: the clamped sum of the
five independent rule deltas over the base of 50. -/
theorem scoreFrom_fst (l p : Row) (h c : Bool) (i : Info) :
    (scoreFrom l p h c i).1 =
      max 0 (min 100 (50 + trendDelta l + maCrossDelta l p + kdDelta h l +
        instDelta c l + shortDelta i)) := by
  simp only [scoreFrom, trendDelta, maCrossDelta, kdDelta, instDelta,
    shortDelta]
  cases h
  all_goals simp only [applyRule_eq, applyRule2_eq, if_true, if_false,
    Bool.false_eq_true, Bool.true_eq_false, ite_false, ite_true]
  all_goals ring_nf

/-- Reasons component of the rule cascade, linearised: the concatenation of
the five rules' reason lists in evaluation order. -/
theorem scoreFrom_snd (l p : Row) (h c : Bool) (i : Info) :
    (scoreFrom l p h c i).2 =
      trendMsgs l ++ maCrossMsgs l p ++ kdMsgs h l ++ instMsgs c l ++
        shortMsgs i := by
  simp only [scoreFrom, trendMsgs, maCrossMsgs, kdMsgs, instMsgs, shortMsgs]
  cases h <;>
    simp only [applyRule_eq, applyRule2_eq, if_true, if_false,
      Bool.false_eq_true, Bool.true_eq_false, ite_false, ite_true] <;>
    simp [List.append_assoc]

/-- The rule cascade, linearised, as a pair. -/
theorem scoreFrom_eq (l p : Row) (h c : Bool) (i : Info) :
    scoreFrom l p h c i =
      (max 0 (min 100 (50 + trendDelta l + maCrossDelta l p + kdDelta h l +
        instDelta c l + shortDelta i)),
       trendMsgs l ++ maCrossMsgs l p ++ kdMsgs h l ++ instMsgs c l ++
        shortMsgs i) := by
  rw [← scoreFrom_fst l p h c i, ← scoreFrom_snd l p h c i]

/-- Introduction form of the main path of `calculate_super_score`: with a
non-empty frame and the three indexings succeeding, the result is `.ok` of
the rule cascade. -/
theorem calculate_eq_main (d : DataFrame) (i : Info) (last prev : Row)
    (c1 : Bool) (hne : d.rows.isEmpty = false)
    (h1 : ilocNeg d.rows 1 = .ok last) (h2 : ilocNeg d.rows 2 = .ok prev)
    (h3 : instCond d.rows last = .ok c1) :
    calculate_super_score (some d) (some i) =
      .ok (scoreFrom last prev d.hasStochCols c1 i) := by
  simp only [calculate_super_score, hne, Bool.false_eq_true, if_false, h1, h2,
    h3, bindE_ok]

/-- Inversion of the main path of `calculate_super_score`: an `.ok` result
on a non-empty frame determines `last`, `prev` and the accumulation
condition, and equals the rule cascade on them. -/
theorem calculate_ok_elim (d : DataFrame) (i : Info) (s : ℤ) (rs : List String)
    (hne : d.rows.isEmpty = false)
    (h : calculate_super_score (some d) (some i) = .ok (s, rs)) :
    ∃ last prev c1,
      ilocNeg d.rows 1 = .ok last ∧ ilocNeg d.rows 2 = .ok prev ∧
      instCond d.rows last = .ok c1 ∧
      (s, rs) = scoreFrom last prev d.hasStochCols c1 i := by
  simp only [calculate_super_score, hne, Bool.false_eq_true, if_false] at h
  cases e1 : ilocNeg d.rows 1 with
  | error e => rw [e1, bindE_error] at h; simp at h
  | ok last =>
    rw [e1, bindE_ok] at h
    cases e2 : ilocNeg d.rows 2 with
    | error e => rw [e2, bindE_error] at h; simp at h
    | ok prev =>
      rw [e2, bindE_ok] at h
      cases e3 : instCond d.rows last with
      | error e => rw [e3, bindE_error] at h; simp at h
      | ok c1 =>
        rw [e3, bindE_ok] at h
        simp only [Except.ok.injEq] at h
        exact ⟨last, prev, c1, rfl, rfl, e3, h.symm⟩

/-- The scoring cascade reads the metadata only through
`shortPercentOfFloat`, so two metadata mappings agreeing there produce the
same cascade output. -/
theorem scoreFrom_info_congr (l p : Row) (h c : Bool) (i i' : Info)
    (hsp : i.shortPercentOfFloat = i'.shortPercentOfFloat) :
    scoreFrom l p h c i = scoreFrom l p h c i' := by
  simp only [scoreFrom, hsp]

/-- `calculate_super_score` reads the metadata only through
`shortPercentOfFloat`. -/
theorem score_info_congr (df : Option DataFrame) (i i' : Info)
    (hsp : i.shortPercentOfFloat = i'.shortPercentOfFloat) :
    calculate_super_score df (some i) = calculate_super_score df (some i') := by
  cases df with
  | none => rfl
  | some d =>
    by_cases hne : d.rows.isEmpty
    · simp [calculate_super_score, hne]
    · simp only [calculate_super_score, Bool.not_eq_true] at hne ⊢
      rw [hne]
      simp only [Bool.false_eq_true, if_false]
      cases e1 : ilocNeg d.rows 1 with
      | error e => rfl
      | ok last =>
        simp only [bindE_ok]
        cases e2 : ilocNeg d.rows 2 with
        | error e => rfl
        | ok prev =>
          simp only [bindE_ok]
          cases e3 : instCond d.rows last with
          | error e => rfl
          | ok c1 =>
            simp only [bindE_ok, Except.ok.injEq]
            exact scoreFrom_info_congr last prev d.hasStochCols c1 i i' hsp

theorem rowsEqBy_length {f : Row → Row → Bool} :
    ∀ {rs ts : List Row}, rowsEqBy f rs ts = true → rs.length = ts.length := by
  intro rs
  induction rs with
  | nil =>
    intro ts h
    cases ts with
    | nil => rfl
    | cons t ts => simp [rowsEqBy] at h
  | cons r rs ih =>
    intro ts h
    cases ts with
    | nil => simp [rowsEqBy] at h
    | cons t ts =>
      simp only [rowsEqBy, Bool.and_eq_true] at h
      simp [ih h.2]

theorem rowsEqBy_get {f : Row → Row → Bool} :
    ∀ {rs ts : List Row}, rowsEqBy f rs ts = true →
      ∀ (n : ℕ) (h1 : n < rs.length) (h2 : n < ts.length),
        f (rs.get ⟨n, h1⟩) (ts.get ⟨n, h2⟩) = true := by
  intro rs
  induction rs with
  | nil =>
    intro ts h n h1 h2
    simp at h1
  | cons r rs ih =>
    intro ts h n h1 h2
    cases ts with
    | nil => simp [rowsEqBy] at h
    | cons t ts =>
      simp only [rowsEqBy, Bool.and_eq_true] at h
      cases n with
      | zero => exact h.1
      | succ m => exact ih h.2 m (by simpa using h1) (by simpa using h2)

theorem rowsEqBy_get' {f : Row → Row → Bool} {rs ts : List Row}
    (h : rowsEqBy f rs ts = true) (n m : ℕ) (hnm : n = m)
    (h1 : n < rs.length) (h2 : m < ts.length) :
    f (rs.get ⟨n, h1⟩) (ts.get ⟨m, h2⟩) = true := by
  subst hnm
  exact rowsEqBy_get h n h1 h2

theorem rowsEqBy_mono {f g : Row → Row → Bool}
    (hfg : ∀ a b, f a b = true → g a b = true) :
    ∀ {rs ts : List Row}, rowsEqBy f rs ts = true → rowsEqBy g rs ts = true := by
  intro rs
  induction rs with
  | nil =>
    intro ts h
    cases ts with
    | nil => rfl
    | cons t ts => simp [rowsEqBy] at h
  | cons r rs ih =>
    intro ts h
    cases ts with
    | nil => simp [rowsEqBy] at h
    | cons t ts =>
      simp only [rowsEqBy, Bool.and_eq_true] at h ⊢
      exact ⟨hfg _ _ h.1, ih h.2⟩

/-- Matching positional lookups into two pointwise-related frames either
both succeed with related rows or both raise. -/
theorem ilocNeg_rel {f : Row → Row → Bool} {rs ts : List Row}
    (h : rowsEqBy f rs ts = true) (k : ℕ) :
    (∃ a b, ilocNeg rs k = .ok a ∧ ilocNeg ts k = .ok b ∧ f a b = true) ∨
    (ilocNeg rs k = .error .insufficientData ∧
      ilocNeg ts k = .error .insufficientData) := by
  have hl := rowsEqBy_length h
  by_cases hk : 0 < k ∧ k ≤ rs.length
  · left
    refine ⟨rs.get ⟨rs.length - k, by omega⟩, ts.get ⟨ts.length - k, by omega⟩,
      ?_, ?_, ?_⟩
    · simp [ilocNeg, hk]
    · simp [ilocNeg, show 0 < k ∧ k ≤ ts.length by omega]
    · exact rowsEqBy_get' h (rs.length - k) (ts.length - k) (by omega)
        (by omega) (by omega)
  · right
    constructor
    · simp [ilocNeg, hk]
    · simp [ilocNeg, show ¬(0 < k ∧ k ≤ ts.length) by omega]

theorem scoreFrom_row_congr {l l' p p' : Row} (h c : Bool) (i : Info)
    (hl : readRowEq l l' = true) (hp : readRowEq p p' = true) :
    scoreFrom l p h c i = scoreFrom l' p' h c i := by
  simp only [readRowEq, Bool.and_eq_true, decide_eq_true_eq] at hl hp
  simp only [scoreFrom, hl.1.1.1.1.1.1, hl.1.1.1.1.1.2, hl.1.1.1.1.2,
    hl.1.1.1.2, hl.1.1.2, hl.1.2, hl.2, hp.1.1.1.1.1.1, hp.1.1.1.1.1.2]

/-- The accumulation condition agrees across two pointwise-related frames. -/
theorem instCond_congr {rs ts : List Row} {last last' : Row}
    (hr : rowsEqBy readRowEq rs ts = true)
    (hlast : readRowEq last last' = true) :
    instCond rs last = instCond ts last' := by
  have hmfi : last.mfi = last'.mfi := by
    simp only [readRowEq, Bool.and_eq_true, decide_eq_true_eq] at hlast
    exact hlast.1.2
  have hobv : last.obv = last'.obv := by
    simp only [readRowEq, Bool.and_eq_true, decide_eq_true_eq] at hlast
    exact hlast.2
  unfold instCond
  rw [hmfi]
  by_cases hm : ogt last'.mfi 80 = true
  · rw [if_pos hm, if_pos hm]
    rcases ilocNeg_rel hr 10 with ⟨a, b, ha, hb, hab⟩ | ⟨ha, hb⟩
    · have hab2 : a.obv = b.obv := by
        simp only [readRowEq, Bool.and_eq_true, decide_eq_true_eq] at hab
        exact hab.2
      rw [ha, hb]
      simp only [bindE_ok, Except.ok.injEq]
      rw [hobv, hab2]
    · rw [ha, hb]
      simp only [bindE_error]
  · rw [if_neg hm, if_neg hm]

/-- Invariance of scoring under replacement of cells the cascade never
reads: two frames with the same stochastic-column presence whose rows agree
pointwise on the read cells score identically. -/
theorem score_rows_congr (d d' : DataFrame) (i : Info)
    (hh : d.hasStochCols = d'.hasStochCols)
    (hr : rowsEqBy readRowEq d.rows d'.rows = true) :
    calculate_super_score (some d) (some i) =
      calculate_super_score (some d') (some i) := by
  have hl := rowsEqBy_length hr
  by_cases hne : d.rows.isEmpty
  · have hne' : d'.rows.isEmpty = true := by
      simp only [List.isEmpty_iff_length_eq_zero] at hne ⊢
      omega
    simp [calculate_super_score, hne, hne']
  · simp only [Bool.not_eq_true] at hne
    have hne' : d'.rows.isEmpty = false := by
      cases h2 : d'.rows with
      | nil =>
        rw [h2] at hl
        cases h3 : d.rows with
        | nil => rw [h3] at hne; simp at hne
        | cons r rs => rw [h3] at hl; simp at hl
      | cons r rs => rfl
    simp only [calculate_super_score, hne, hne', Bool.false_eq_true, if_false]
    rcases ilocNeg_rel hr 1 with ⟨a1, b1, ha1, hb1, hab1⟩ | ⟨ha1, hb1⟩
    · rw [ha1, hb1]
      simp only [bindE_ok]
      rcases ilocNeg_rel hr 2 with ⟨a2, b2, ha2, hb2, hab2⟩ | ⟨ha2, hb2⟩
      · rw [ha2, hb2]
        simp only [bindE_ok]
        rw [show instCond d.rows a1 = instCond d'.rows b1 from
          instCond_congr hr hab1]
        cases e3 : instCond d'.rows b1 with
        | error e => rfl
        | ok c1 =>
          simp only [bindE_ok, Except.ok.injEq]
          rw [hh]
          exact scoreFrom_row_congr d'.hasStochCols c1 i hab1 hab2
      · rw [ha2, hb2]
        simp only [bindE_error]
    · rw [ha1, hb1]
      simp only [bindE_error]

/-- Claim C1, corrected: on a `None` or empty bar table or `None` metadata
mapping, the rule cascade does not run — the result carries no reasons and
the dashboard guard withholds the score display — but `calculate_super_score`
itself returns the sentinel `(50, [])`, an ok outcome carrying the default
score of 50, rather than an explicit unavailable error. -/
theorem C1_theorem (df : Option DataFrame) (info : Option Info)
    (h : df = none ∨ info = none ∨ ∃ d, df = some d ∧ d.rows = []) :
    calculate_super_score df info = .ok (50, []) ∧
    dashboard_guard df info = false := by
  rcases h with h | h | ⟨d, hd, hrows⟩
  · subst h
    cases info <;> exact ⟨rfl, rfl⟩
  · subst h
    cases df <;> exact ⟨rfl, rfl⟩
  · subst hd
    cases info with
    | none => exact ⟨rfl, rfl⟩
    | some i =>
      constructor
      · simp [calculate_super_score, hrows]
      · simp [dashboard_guard, hrows]

/-- Witness for C1 at a concrete empty frame. -/
theorem C1_witness :
    calculate_super_score (some ⟨[], false⟩) (some infoN) = .ok (50, []) ∧
    dashboard_guard (some ⟨[], false⟩) (some infoN) = false :=
  C1_theorem (some ⟨[], false⟩) (some infoN)
    (Or.inr (Or.inr ⟨⟨[], false⟩, rfl, rfl⟩))

/-- Counterexample to C1 as stated: at concrete unavailable inputs — frame
absent, frame empty, metadata absent — the scoring operation returns the
default score of 50 as an ordinary ok outcome instead of an explicit
unavailable signal. -/
theorem C1_counterexample :
    scoreOf (calculate_super_score none (some infoN)) = .ok 50 ∧
    scoreOf (calculate_super_score (some ⟨[], true⟩) (some infoN)) = .ok 50 ∧
    scoreOf (calculate_super_score (some ⟨[rowNone], true⟩) none) = .ok 50 :=
  ⟨rfl, rfl, rfl⟩

/-- Claim C2, confirmed: whenever the engine returns a score at all, that
score is an integer in the closed interval `[0,100]`. -/
theorem C2_theorem (df : Option DataFrame) (info : Option Info) (s : ℤ)
    (rs : List String) (h : calculate_super_score df info = .ok (s, rs)) :
    0 ≤ s ∧ s ≤ 100 := by
  cases df with
  | none =>
    have hs : calculate_super_score none info = .ok (50, []) := by
      cases info <;> rfl
    have h5 := Except.ok.inj (hs.symm.trans h)
    have h6 : (50 : ℤ) = s := congrArg Prod.fst h5
    omega
  | some d =>
    cases info with
    | none =>
      have h5 := Except.ok.inj
        ((show calculate_super_score (some d) none = .ok (50, []) from
          rfl).symm.trans h)
      have h6 : (50 : ℤ) = s := congrArg Prod.fst h5
      omega
    | some i =>
      by_cases hne : d.rows.isEmpty
      · have hs : calculate_super_score (some d) (some i) = .ok (50, []) := by
          simp [calculate_super_score, hne]
        have h5 := Except.ok.inj (hs.symm.trans h)
        have h6 : (50 : ℤ) = s := congrArg Prod.fst h5
        omega
      · simp only [Bool.not_eq_true] at hne
        obtain ⟨last, prev, c1, e1, e2, e3, heq⟩ :=
          calculate_ok_elim d i s rs hne h
        have hfst : s = (scoreFrom last prev d.hasStochCols c1 i).1 :=
          congrArg Prod.fst heq
        rw [scoreFrom_fst] at hfst
        omega

/-- Witness for C2 at a concrete frame with two bare rows. -/
theorem C2_witness : (0 : ℤ) ≤ 50 ∧ (50 : ℤ) ≤ 100 :=
  C2_theorem (some d6) (some infoN) 50 [] rfl

/-- Claim C3, confirmed: on a frame holding exactly one bar the engine
fails — indexing the second-to-last row raises — and returns no score. -/
theorem C3_theorem (d : DataFrame) (i : Info) (h : d.rows.length = 1) :
    calculate_super_score (some d) (some i) = .error .insufficientData := by
  have hne : d.rows.isEmpty = false := by
    cases hr : d.rows with
    | nil => rw [hr] at h; simp at h
    | cons a l => rfl
  have e2 : ilocNeg d.rows 2 = .error .insufficientData := by
    unfold ilocNeg
    rw [dif_neg (by omega)]
  cases e1 : ilocNeg d.rows 1 with
  | error e =>
    exfalso
    unfold ilocNeg at e1
    rw [dif_pos (by omega)] at e1
    exact absurd e1 (by simp)
  | ok last =>
    simp only [calculate_super_score, hne, Bool.false_eq_true, if_false, e1,
      bindE_ok, e2, bindE_error]

/-- Witness for C3 at a concrete one-row frame. -/
theorem C3_witness :
    calculate_super_score (some ⟨[rowNone], true⟩) (some infoN) =
      .error .insufficientData :=
  C3_theorem ⟨[rowNone], true⟩ infoN rfl

/-- Claim C4, corrected: the final score equals 50 plus the raw sum of the
five rule deltas, clamped to `[0,100]`; the declared `WEIGHTS` never enter
the arithmetic — the deltas are literals in the rule bodies. -/
theorem C4_theorem (d : DataFrame) (i : Info) (last prev : Row) (c1 : Bool)
    (s : ℤ) (rs : List String) (hne : d.rows.isEmpty = false)
    (h1 : ilocNeg d.rows 1 = .ok last) (h2 : ilocNeg d.rows 2 = .ok prev)
    (h3 : instCond d.rows last = .ok c1)
    (h : calculate_super_score (some d) (some i) = .ok (s, rs)) :
    s = max 0 (min 100 (50 + trendDelta last + maCrossDelta last prev +
      kdDelta d.hasStochCols last + instDelta c1 last + shortDelta i)) := by
  have heq := Except.ok.inj
    ((calculate_eq_main d i last prev c1 hne h1 h2 h3).symm.trans h)
  have hfst : s = (scoreFrom last prev d.hasStochCols c1 i).1 :=
    (congrArg Prod.fst heq).symm
  rw [scoreFrom_fst] at hfst
  exact hfst

/-- Witness for C4 at the concrete frame on which only the bullish trend
rule fires: 65 = clamp of 50 + 15. -/
theorem C4_witness :
    (65 : ℤ) = max 0 (min 100 (50 + trendDelta rTrend +
      maCrossDelta rTrend rowNone + kdDelta true rTrend +
      instDelta false rTrend + shortDelta infoN)) :=
  C4_theorem d4 infoN rTrend rowNone false 65 [trendBullMsg] rfl rfl rfl rfl rfl

/-- Counterexample to C4 as stated: on a concrete input where only the
bullish trend rule fires, the code returns 65 = 50 + 15, while combining
the dimension totals via the configured weights would truncate
50 plus 30 times 15 over 100 to 54; 65 is not 54, so the configured
weights do not enter the score arithmetic. -/
theorem C4_counterexample :
    scoreOf (calculate_super_score (some d4) (some infoN)) = .ok 65 ∧
    spec_weighted_score rTrend rowNone true false infoN = 54 ∧
    (65 : ℤ) ≠ 54 :=
  ⟨rfl, rfl, by decide⟩

/-- Claim C5, corrected: the momentum rules of the engine are the MA 5/10
crossover and the stochastic KD cross; the RSI and MACD cells are never
read, so any two inputs agreeing on all read cells — in particular inputs
differing only in RSI or MACD — produce identical outcomes, while changing
the stochastic or moving-average readings does change the outcome. -/
theorem C5_theorem :
    (∀ (d d' : DataFrame) (i : Info), d.hasStochCols = d'.hasStochCols →
      rowsEqBy readRowEq d.rows d'.rows = true →
      calculate_super_score (some d) (some i) =
        calculate_super_score (some d') (some i)) ∧
    calculate_super_score (some dK1) (some infoN) ≠
      calculate_super_score (some dK2) (some infoN) ∧
    scoreOf (calculate_super_score (some dMA1) (some infoN)) ≠
      scoreOf (calculate_super_score (some dMA2) (some infoN)) :=
  ⟨fun d d' i hh hr => score_rows_congr d d' i hh hr, by decide, by decide⟩

/-- Witness for C5: two concrete frames differing only in the RSI reading
(32 against 70) score identically. -/
theorem C5_witness :
    calculate_super_score (some dR1) (some infoN) =
      calculate_super_score (some dR2) (some infoN) :=
  C5_theorem.1 dR1 dR2 infoN rfl rfl

/-- Counterexample to C5 as stated: no pair of inputs differing only in the
RSI reading, and none differing only in the MACD cells, changes the
outcome, because the engine never reads those cells. -/
theorem C5_counterexample : ¬ C5_claim := by
  intro hc
  rcases hc.1 with ⟨d, d', i, hh, hr, hne⟩
  refine hne (score_rows_congr d d' i hh (rowsEqBy_mono ?_ hr))
  intro a b hab
  simp only [rowEqExceptRsi, Bool.and_eq_true] at hab
  exact hab.1.1

/-- Claim C6, corrected: the engine reads no metadata beyond the short
float — revenue growth and debt-to-equity are displayed elsewhere on the
page but never scored — so outcomes are invariant in those two fields,
while moving the short float across the 20 percent threshold does change
the score. -/
theorem C6_theorem :
    (∀ (df : Option DataFrame) (sp rg de rg' de' : Option ℚ),
      calculate_super_score df (some ⟨sp, rg, de⟩) =
        calculate_super_score df (some ⟨sp, rg', de'⟩)) ∧
    scoreOf (calculate_super_score (some d6) (some info15)) ≠
      scoreOf (calculate_super_score (some d6) (some info25)) :=
  ⟨fun df sp rg de rg' de' => score_info_congr df _ _ rfl, by decide⟩

/-- Counterexample to C6 as stated: no pair of inputs differing only in
revenue growth or debt-to-equity changes the outcome. -/
theorem C6_counterexample : ¬ C6_claim := by
  rintro ⟨df, sp, rg, de, rg', de', hne⟩
  exact hne (score_info_congr df _ _ rfl)

theorem trendDelta_bounds (l : Row) :
    -15 ≤ trendDelta l ∧ trendDelta l ≤ 15 := by
  unfold trendDelta
  split_ifs <;> omega

theorem maCrossDelta_bounds (l p : Row) :
    0 ≤ maCrossDelta l p ∧ maCrossDelta l p ≤ 10 := by
  unfold maCrossDelta
  split_ifs <;> omega

theorem kdDelta_bounds (hs : Bool) (l : Row) :
    -10 ≤ kdDelta hs l ∧ kdDelta hs l ≤ 10 := by
  unfold kdDelta
  split_ifs <;> omega

theorem instDelta_bounds (c1 : Bool) (l : Row) :
    0 ≤ instDelta c1 l ∧ instDelta c1 l ≤ 10 := by
  unfold instDelta
  split_ifs <;> omega

/-- Claim C7, corrected: with at least two bars the engine completes
without raising provided the current MFI reading does not exceed 80 or the
frame has at least ten rows — the stochastic rule is skipped, not fatal,
when its columns are absent — but when MFI exceeds 80 on a frame shorter
than ten rows, the OBV lookback raises instead of skipping the rule. -/
theorem C7_theorem (d : DataFrame) (i : Info) (last prev : Row)
    (hlen : 2 ≤ d.rows.length)
    (h1 : ilocNeg d.rows 1 = .ok last) (h2 : ilocNeg d.rows 2 = .ok prev)
    (hmfi : ogt last.mfi 80 = false ∨ 10 ≤ d.rows.length) :
    calculate_super_score (some d) (some i) =
      .ok (scoreFrom last prev d.hasStochCols (instOkB d.rows last) i) ∧
    (d.hasStochCols = false →
      (scoreFrom last prev d.hasStochCols (instOkB d.rows last) i).2 =
        trendMsgs last ++ maCrossMsgs last prev ++
        instMsgs (instOkB d.rows last) last ++ shortMsgs i) := by
  have hne : d.rows.isEmpty = false := by
    cases hr : d.rows with
    | nil => rw [hr] at hlen; simp at hlen
    | cons a l => rfl
  have hc : instCond d.rows last = .ok (instOkB d.rows last) := by
    by_cases hm : ogt last.mfi 80 = true
    · rcases hmfi with hf | hlen10
      · rw [hm] at hf
        exact absurd hf (by simp)
      · have e10 : ilocNeg d.rows 10 =
            .ok (d.rows.get ⟨d.rows.length - 10, by omega⟩) := by
          unfold ilocNeg
          rw [dif_pos (by omega)]
        unfold instOkB instCond
        rw [if_pos hm, e10, bindE_ok]
    · simp only [Bool.not_eq_true] at hm
      unfold instOkB instCond
      rw [hm]
      simp
  constructor
  · exact calculate_eq_main d i last prev (instOkB d.rows last) hne h1 h2 hc
  · intro hstoch
    rw [scoreFrom_snd, hstoch]
    simp [kdMsgs]

/-- Witness for C7 at a concrete two-row frame with no stochastic columns
and no MFI reading. -/
theorem C7_witness :
    calculate_super_score (some d7w) (some infoN) =
      .ok (scoreFrom rowNone rowNone d7w.hasStochCols
        (instOkB d7w.rows rowNone) infoN) ∧
    (d7w.hasStochCols = false →
      (scoreFrom rowNone rowNone d7w.hasStochCols
        (instOkB d7w.rows rowNone) infoN).2 =
        trendMsgs rowNone ++ maCrossMsgs rowNone rowNone ++
        instMsgs (instOkB d7w.rows rowNone) rowNone ++ shortMsgs infoN) :=
  C7_theorem d7w infoN rowNone rowNone (by decide) rfl rfl (Or.inl rfl)

/-- Counterexample to C7 as stated: a concrete frame with two bars whose
current MFI reads 90 makes the engine raise — the OBV lookback indexes ten
rows back into a two-row frame — rather than skip the rule. -/
theorem C7_counterexample :
    2 ≤ dfC7.rows.length ∧
    calculate_super_score (some dfC7) (some infoN) =
      .error .insufficientData :=
  ⟨by decide, rfl⟩

/-- Claim C8, corrected: the accumulation rule fires — contributing +10 and
appending its reason — exactly when the current MFI reading exceeds 80 and
the current OBV exceeds the OBV at the tenth row from the end, which is
nine bars prior to the current bar, not ten. -/
theorem C8_theorem (d : DataFrame) (i : Info) (last prev : Row) (c1 : Bool)
    (s : ℤ) (rs : List String) (hne : d.rows.isEmpty = false)
    (h1 : ilocNeg d.rows 1 = .ok last) (h2 : ilocNeg d.rows 2 = .ok prev)
    (h3 : instCond d.rows last = .ok c1)
    (h : calculate_super_score (some d) (some i) = .ok (s, rs)) :
    (c1 = true ↔ ogt last.mfi 80 = true ∧
      ∃ look, ilocNeg d.rows 10 = .ok look ∧ ogtO last.obv look.obv = true) ∧
    rs = trendMsgs last ++ maCrossMsgs last prev ++
      kdMsgs d.hasStochCols last ++
      (if c1 then [accumMsg] else if olt last.mfi 20 then [capitMsg] else []) ++
      shortMsgs i ∧
    s = max 0 (min 100 (50 + trendDelta last + maCrossDelta last prev +
      kdDelta d.hasStochCols last +
      (if c1 then 10 else if olt last.mfi 20 then 5 else 0) +
      shortDelta i)) := by
  have heq := Except.ok.inj
    ((calculate_eq_main d i last prev c1 hne h1 h2 h3).symm.trans h)
  have hsnd : rs = (scoreFrom last prev d.hasStochCols c1 i).2 :=
    (congrArg Prod.snd heq).symm
  have hfst : s = (scoreFrom last prev d.hasStochCols c1 i).1 :=
    (congrArg Prod.fst heq).symm
  rw [scoreFrom_snd] at hsnd
  rw [scoreFrom_fst] at hfst
  refine ⟨?_, by rw [hsnd]; simp only [instMsgs], by rw [hfst]; simp only [instDelta]⟩
  unfold instCond at h3
  by_cases hm : ogt last.mfi 80 = true
  · rw [if_pos hm] at h3
    cases e10 : ilocNeg d.rows 10 with
    | error e =>
      rw [e10, bindE_error] at h3
      exact absurd h3 (by simp)
    | ok look =>
      rw [e10, bindE_ok] at h3
      have hc1 : c1 = ogtO last.obv look.obv := (Except.ok.inj h3).symm
      constructor
      · intro hc
        exact ⟨hm, look, rfl, hc1 ▸ hc⟩
      · rintro ⟨_, look2, e10b, hgt⟩
        have hlk : look = look2 := Except.ok.inj e10b
        rw [hc1, hlk]
        exact hgt
  · simp only [Bool.not_eq_true] at hm
    rw [hm] at h3
    simp only [Bool.false_eq_true, if_false, Except.ok.injEq] at h3
    constructor
    · intro hc
      rw [← h3] at hc
      exact absurd hc (by simp)
    · rintro ⟨hmt, _⟩
      rw [hm] at hmt
      exact absurd hmt (by simp)

/-- Witness for C8 at the concrete eleven-row frame: the accumulation
reason is the sole reason produced. -/
theorem C8_witness :
    [accumMsg] = trendMsgs rMfiHi ++ maCrossMsgs rMfiHi rowNone ++
      kdMsgs dfC8.hasStochCols rMfiHi ++
      (if true then [accumMsg]
        else if olt rMfiHi.mfi 20 then [capitMsg] else []) ++
      shortMsgs infoN :=
  (C8_theorem dfC8 infoN rMfiHi rowNone true 60 [accumMsg]
    rfl rfl rfl rfl rfl).2.1

/-- Counterexample to C8 as stated: on the concrete frame `dfC8` the
current OBV (50) is not higher than the OBV ten bars prior (100) — the
claim's trigger condition is false — yet the rule fires, because the code
compares against the tenth row from the end (OBV 0), nine bars prior. -/
theorem C8_counterexample :
    claimAccumCond dfC8.rows = false ∧
    calculate_super_score (some dfC8) (some infoN) = .ok (60, [accumMsg]) :=
  ⟨rfl, rfl⟩

/-- Claim C9, corrected: holding the frame and the other metadata fields
fixed, raising the short float from 15 to 25 percent strictly increases
the returned score, and increases it by exactly min(15, 100 - old score):
the +15 bonus, except that the upper clamp at 100 can absorb part of it. -/
theorem C9_theorem (d : DataFrame) (rg de rg' de' : Option ℚ) (s1 s2 : ℤ)
    (rs1 rs2 : List String) (hne : d.rows.isEmpty = false)
    (h1 : calculate_super_score (some d)
      (some ⟨some (mkRat 3 20), rg, de⟩) = .ok (s1, rs1))
    (h2 : calculate_super_score (some d)
      (some ⟨some (mkRat 1 4), rg', de'⟩) = .ok (s2, rs2)) :
    s1 < s2 ∧ s2 = min 100 (s1 + 15) := by
  obtain ⟨last, prev, c1, e1, e2, e3, heq1⟩ :=
    calculate_ok_elim d _ s1 rs1 hne h1
  obtain ⟨last2, prev2, c12, e1b, e2b, e3b, heq2⟩ :=
    calculate_ok_elim d _ s2 rs2 hne h2
  have hlast : last = last2 := Except.ok.inj (e1.symm.trans e1b)
  subst hlast
  have hprev : prev = prev2 := Except.ok.inj (e2.symm.trans e2b)
  subst hprev
  have hc : c1 = c12 := Except.ok.inj (e3.symm.trans e3b)
  subst hc
  have hs1 : s1 = (scoreFrom last prev d.hasStochCols c1
      ⟨some (mkRat 3 20), rg, de⟩).1 := congrArg Prod.fst heq1
  have hs2 : s2 = (scoreFrom last prev d.hasStochCols c1
      ⟨some (mkRat 1 4), rg', de'⟩).1 := congrArg Prod.fst heq2
  rw [scoreFrom_fst] at hs1 hs2
  have hd1 : shortDelta ⟨some (mkRat 3 20), rg, de⟩ = 0 := rfl
  have hd2 : shortDelta ⟨some (mkRat 1 4), rg', de'⟩ = 15 := rfl
  rw [hd1] at hs1
  rw [hd2] at hs2
  have ht := trendDelta_bounds last
  have hma := maCrossDelta_bounds last prev
  have hkd := kdDelta_bounds d.hasStochCols last
  have hin := instDelta_bounds c1 last
  omega

/-- Witness for C9 at the concrete all-bullish ten-row frame: 95 rises to
100, an increase of min(15, 100 - 95) = 5. -/
theorem C9_witness : (95 : ℤ) < 100 ∧ (100 : ℤ) = min 100 (95 + 15) :=
  C9_theorem d9 none none none none 95 100
    [trendBullMsg, maCrossMsg, kdGoldMsg, accumMsg]
    [trendBullMsg, maCrossMsg, kdGoldMsg, accumMsg, squeezeMsg (mkRat 1 4)]
    rfl rfl rfl

/-- Counterexample to C9 as stated: on the concrete all-bullish frame the
score moves from 95 to the clamp at 100, an increase of 5, not the bonus
amount of 15. -/
theorem C9_counterexample :
    scoreOf (calculate_super_score (some d9) (some info15)) = .ok 95 ∧
    scoreOf (calculate_super_score (some d9) (some info25)) = .ok 100 ∧
    ¬ ((100 : ℤ) = 95 + 15) :=
  ⟨rfl, rfl, by decide⟩

/-- Claim C10, confirmed: when the accumulation condition fails and the
current MFI reading is below 20, the engine adds exactly +5 and appends the
single capitulation reason; the two institutional branches are mutually
exclusive, so at most one institutional reason ever appears, in the fixed
position between the momentum and short-risk reasons. -/
theorem C10_theorem (d : DataFrame) (i : Info) (last prev : Row) (c1 : Bool)
    (s : ℤ) (rs : List String) (hne : d.rows.isEmpty = false)
    (h1 : ilocNeg d.rows 1 = .ok last) (h2 : ilocNeg d.rows 2 = .ok prev)
    (h3 : instCond d.rows last = .ok c1)
    (h : calculate_super_score (some d) (some i) = .ok (s, rs)) :
    (olt last.mfi 20 = true →
      c1 = false ∧
      s = max 0 (min 100 (50 + trendDelta last + maCrossDelta last prev +
        kdDelta d.hasStochCols last + 5 + shortDelta i)) ∧
      rs = trendMsgs last ++ maCrossMsgs last prev ++
        kdMsgs d.hasStochCols last ++ [capitMsg] ++ shortMsgs i) ∧
    (instMsgs c1 last).length ≤ 1 ∧
    rs = trendMsgs last ++ maCrossMsgs last prev ++
      kdMsgs d.hasStochCols last ++ instMsgs c1 last ++ shortMsgs i := by
  have heq := Except.ok.inj
    ((calculate_eq_main d i last prev c1 hne h1 h2 h3).symm.trans h)
  have hsnd : rs = (scoreFrom last prev d.hasStochCols c1 i).2 :=
    (congrArg Prod.snd heq).symm
  have hfst : s = (scoreFrom last prev d.hasStochCols c1 i).1 :=
    (congrArg Prod.fst heq).symm
  rw [scoreFrom_snd] at hsnd
  rw [scoreFrom_fst] at hfst
  refine ⟨?_, ?_, hsnd⟩
  · intro hmfi
    have hogt : ogt last.mfi 80 = false := by
      unfold olt at hmfi
      unfold ogt
      cases hm : last.mfi with
      | none => rw [hm] at hmfi
      | some v =>
        rw [hm] at hmfi
        simp only [decide_eq_true_eq] at hmfi
        exact decide_eq_false (by linarith)
    have hc1 : c1 = false := by
      unfold instCond at h3
      rw [hogt] at h3
      simp only [Bool.false_eq_true, if_false, Except.ok.injEq] at h3
      exact h3.symm
    refine ⟨hc1, ?_, ?_⟩
    · rw [hfst, hc1]
      simp [instDelta, hmfi]
    · rw [hsnd, hc1]
      simp [instMsgs, hmfi]
  · unfold instMsgs
    split_ifs <;> simp

/-- Witness for C10 at a concrete two-row frame whose MFI reads 10: the
capitulation reason is the sole reason produced. -/
theorem C10_witness :
    [capitMsg] = trendMsgs rMfiLow ++ maCrossMsgs rMfiLow rowNone ++
      kdMsgs dC10.hasStochCols rMfiLow ++ instMsgs false rMfiLow ++
      shortMsgs infoN :=
  (C10_theorem dC10 infoN rMfiLow rowNone false 55 [capitMsg]
    rfl rfl rfl rfl rfl).2.2

end Stock
